import Mathlib

/-!
Verification of the agent-sandbox Python client and router.

This file gives a shallow embedding of the core logic of
`k8s_agent_sandbox/sandbox_client.py` (session lifecycle, connectivity
strategy selection, cleanup, transport helpers),
`sandbox-router/sandbox_router.py` (the stateless reverse proxy), and the
file endpoints of `examples/python-runtime-sandbox/main.py` (the in-sandbox
runtime server), together with theorems about the embedded definitions.

Modelling conventions:
- Python `str` values that are only compared or concatenated are Lean
  `String`s; values that flow through byte-level transformations
  (percent-encoding, file contents, paths handed to the runtime server)
  are modelled as their UTF-8 byte sequences, `List Nat` with each
  element < 256.  The byte-level operations used on paths only test the
  ASCII bytes 47 ('/') and 46 ('.'), which never occur inside a UTF-8
  multi-byte sequence, so the byte-level model agrees with Python's
  str-level operations.
- Fallible operations return `Except`/`Option`; external behaviour
  (watch events, the subprocess, the cluster API, the upstream HTTP hop)
  is passed in as explicit data.
-/

/-! ## Transport retry policy (SandboxClient.__init__, lines 131-140) -/

/-- Embedding of the `urllib3.util.retry.Retry` configuration object. -/
structure RetryConfig where
  total : Nat
  backoffFactor : ℚ
  statusForcelist : List Nat
  allowedMethods : List String
  deriving DecidableEq

/-- The retry configuration mounted on the client's HTTP session:
`Retry(total=5, backoff_factor=0.5, status_forcelist=[500, 502, 503, 504],
allowed_methods=["GET", "POST", "PUT", "DELETE"])`. -/
def clientRetries : RetryConfig :=
  { total := 5
    backoffFactor := 1/2
    statusForcelist := [500, 502, 503, 504]
    allowedMethods := ["GET", "POST", "PUT", "DELETE"] }

/-- urllib3 retries a response automatically exactly when the request method
is in `allowed_methods` and the response status is in `status_forcelist`. -/
def retriesOnStatus (r : RetryConfig) (method : String) (status : Nat) : Bool :=
  r.allowedMethods.contains method && r.statusForcelist.contains status

/-- Idempotent HTTP methods per RFC 9110 section 9.2.2. -/
def isIdempotentMethod (method : String) : Bool :=
  method = "GET" || method = "HEAD" || method = "PUT" || method = "DELETE" ||
  method = "OPTIONS" || method = "TRACE"

/-! ## Percent-encoding of path segments (read/list/exists, lines 470-521)

The client calls `urllib.parse.quote(path, safe='')`.  `quote` first encodes
the string as UTF-8 and then percent-encodes every byte that is not in the
always-safe set (ASCII letters, digits, `_.-~`); `safe=''` exempts nothing
else.  We model the byte level: a path is its UTF-8 byte sequence. -/

/-- Bytes `urllib.parse.quote` never encodes: ASCII letters, digits,
and the marks `_`, `.`, `-`, `~`.  With `safe=''` nothing else is exempt. -/
def isUnreservedByte (b : Nat) : Bool :=
  (65 ≤ b && b ≤ 90) || (97 ≤ b && b ≤ 122) || (48 ≤ b && b ≤ 57) ||
  b == 45 || b == 46 || b == 95 || b == 126

/-- Upper-case hexadecimal digit (as an ASCII byte) of a value below 16. -/
def hexUpper (n : Nat) : Nat :=
  if n < 10 then 48 + n else 55 + n

/-- Encoding of one byte: kept verbatim when unreserved, otherwise
`%XX` (37 is `%`). -/
def quoteByte (b : Nat) : List Nat :=
  if isUnreservedByte b then [b] else [37, hexUpper (b / 16), hexUpper (b % 16)]

/-- Embedding of `urllib.parse.quote(path, safe='')` on the UTF-8 bytes. -/
def pyQuote : List Nat → List Nat
  | [] => []
  | b :: rest => quoteByte b ++ pyQuote rest

/-- Value of a hexadecimal digit byte (both cases), as used by
`urllib.parse.unquote`. -/
def hexVal (b : Nat) : Option Nat :=
  if 48 ≤ b && b ≤ 57 then some (b - 48)
  else if 65 ≤ b && b ≤ 70 then some (b - 55)
  else if 97 ≤ b && b ≤ 102 then some (b - 87)
  else none

/-- Embedding of `urllib.parse.unquote` at the byte level: `%` followed by
two hexadecimal digits decodes to one byte, any other `%` stays literal. -/
def pyUnquote : List Nat → List Nat
  | [] => []
  | b :: rest =>
    if b = 37 then
      match rest with
      | d1 :: d2 :: rest2 =>
        match hexVal d1, hexVal d2 with
        | some hi, some lo => (16 * hi + lo) :: pyUnquote rest2
        | _, _ => b :: pyUnquote (d1 :: d2 :: rest2)
      | [d1] => b :: pyUnquote [d1]
      | [] => [b]
    else b :: pyUnquote rest
termination_by l => l.length
decreasing_by all_goals simp <;> omega

/-- URL route built by `SandboxClient.read` / `list` / `exists`: a fixed
route name and the percent-encoded path segment appended to it. -/
structure FileRoute where
  route : String
  encodedSegment : List Nat
  deriving DecidableEq

/-- `read` requests `GET download/{quote(path, safe='')}`. -/
def readRoute (path : List Nat) : FileRoute :=
  { route := "download", encodedSegment := pyQuote path }

/-- `list` requests `GET list/{quote(path, safe='')}`. -/
def listRoute (path : List Nat) : FileRoute :=
  { route := "list", encodedSegment := pyQuote path }

/-- `exists` requests `GET exists/{quote(path, safe='')}`. -/
def existsRoute (path : List Nat) : FileRoute :=
  { route := "exists", encodedSegment := pyQuote path }

/-! ## Upload filename (SandboxClient.write, lines 454-468) -/

/-- Embedding of `os.path.basename` on POSIX byte paths: the suffix after
the last `/` (byte 47), computed exactly as the running fold that restarts
at every slash. -/
def basenameBytes (p : List Nat) : List Nat :=
  p.foldl (fun acc b => if b = 47 then [] else acc ++ [b]) []

/-- The multipart upload request `write` sends:
`files={'file': (os.path.basename(path), content)}` posted to `upload`.
String content is first encoded as UTF-8, so content is a byte sequence. -/
structure UploadRequest where
  endpoint : String
  filename : List Nat
  content : List Nat
  deriving DecidableEq

/-- Embedding of the request construction in `SandboxClient.write`. -/
def writeUploadRequest (path content : List Nat) : UploadRequest :=
  { endpoint := "upload", filename := basenameBytes path, content := content }

/-! ## Helper lemmas -/

theorem basename_foldl_no_slash (l : List Nat) (h : ∀ b ∈ l, b ≠ 47) :
    ∀ acc : List Nat,
      l.foldl (fun acc b => if b = 47 then [] else acc ++ [b]) acc = acc ++ l := by
  induction l with
  | nil => intro acc; simp
  | cons b rest ih =>
    intro acc
    have hb : b ≠ 47 := h b (List.mem_cons_self b rest)
    have hrest : ∀ x ∈ rest, x ≠ 47 := fun x hx => h x (List.mem_cons_of_mem b hx)
    simp [List.foldl_cons, hb, ih hrest]

theorem basenameBytes_no_slash (l : List Nat) (h : ∀ b ∈ l, b ≠ 47) :
    basenameBytes l = l := by
  simpa [basenameBytes] using basename_foldl_no_slash l h []

theorem basenameBytes_append_slash (d name : List Nat) (h : ∀ b ∈ name, b ≠ 47) :
    basenameBytes (d ++ 47 :: name) = name := by
  unfold basenameBytes
  rw [List.foldl_append]
  simp [basename_foldl_no_slash name h]

theorem hexVal_hexUpper (n : Nat) (h : n < 16) : hexVal (hexUpper n) = some n := by
  interval_cases n <;> rfl

theorem isUnreservedByte_ne_37 (b : Nat) (h : isUnreservedByte b = true) : b ≠ 37 := by
  intro hb
  subst hb
  simp [isUnreservedByte] at h

theorem pyUnquote_nil : pyUnquote [] = [] := by
  rw [pyUnquote.eq_def]

theorem pyUnquote_cons_ne (b : Nat) (l : List Nat) (hb : ¬ b = 37) :
    pyUnquote (b :: l) = b :: pyUnquote l := by
  conv_lhs => rw [pyUnquote.eq_def]
  cases l with
  | nil => simp [hb, pyUnquote_nil]
  | cons c t =>
    cases t with
    | nil => simp [hb]
    | cons d u => simp [hb]

theorem pyUnquote_percent (d1 d2 : Nat) (l : List Nat) (hi lo : Nat)
    (h1 : hexVal d1 = some hi) (h2 : hexVal d2 = some lo) :
    pyUnquote (37 :: d1 :: d2 :: l) = (16 * hi + lo) :: pyUnquote l := by
  conv_lhs => rw [pyUnquote.eq_def]
  simp [h1, h2]

theorem pyUnquote_pyQuote (bs : List Nat) (h : ∀ b ∈ bs, b < 256) :
    pyUnquote (pyQuote bs) = bs := by
  induction bs with
  | nil => exact pyUnquote_nil
  | cons b rest ih =>
    have hb : b < 256 := h b (List.mem_cons_self b rest)
    have hrest : ∀ x ∈ rest, x < 256 := fun x hx => h x (List.mem_cons_of_mem b hx)
    show pyUnquote (quoteByte b ++ pyQuote rest) = b :: rest
    by_cases hu : isUnreservedByte b = true
    · rw [quoteByte, if_pos hu]
      rw [List.cons_append, List.nil_append,
        pyUnquote_cons_ne b _ (isUnreservedByte_ne_37 b hu), ih hrest]
    · rw [quoteByte, if_neg hu]
      have hdiv : b / 16 < 16 := by omega
      have hmod : b % 16 < 16 := Nat.mod_lt b (by norm_num)
      rw [List.cons_append, List.cons_append, List.cons_append, List.nil_append,
        pyUnquote_percent _ _ _ _ _ (hexVal_hexUpper _ hdiv) (hexVal_hexUpper _ hmod),
        ih hrest]
      congr 1
      omega

/-! ## Claim theorems: C3, C9, C10 -/

/-- C3: the claim states that the transport retry policy (statuses 500, 502,
503, 504) applies only to idempotent verbs and that POST is never retried.
This is false on the code: `allowed_methods=["GET", "POST", "PUT", "DELETE"]`
explicitly includes POST, so a POST answered 503 is retried even though POST
is not an idempotent method. -/
theorem c3_post_retried_counterexample :
    retriesOnStatus clientRetries "POST" 503 = true ∧
      isIdempotentMethod "POST" = false :=
  ⟨rfl, rfl⟩

/-- C3 (amended): the transport layer retries a request exactly when its
method is one of GET, POST, PUT, DELETE and the response status is one of
500, 502, 503, 504; the set of retried methods includes the non-idempotent
POST. -/
theorem c3_retry_policy_amended (method : String) (status : Nat) :
    retriesOnStatus clientRetries method status = true ↔
      ((method = "GET" ∨ method = "POST" ∨ method = "PUT" ∨ method = "DELETE") ∧
        (status = 500 ∨ status = 502 ∨ status = 503 ∨ status = 504)) := by
  simp [retriesOnStatus, clientRetries]

/-- C9: in each of read, list and exists the path is percent-encoded exactly
once with nothing exempted, so percent-decoding the URL segment recovers the
original path (as its UTF-8 byte sequence) unchanged. -/
theorem c9_percent_encoding_round_trip (path : List Nat)
    (h : ∀ b ∈ path, b < 256) :
    pyUnquote (readRoute path).encodedSegment = path ∧
      pyUnquote (listRoute path).encodedSegment = path ∧
      pyUnquote (existsRoute path).encodedSegment = path :=
  ⟨pyUnquote_pyQuote path h, pyUnquote_pyQuote path h, pyUnquote_pyQuote path h⟩

/-- C9 witness: the path "a b/c" (bytes 97 32 98 47 99), containing a space
and a slash-bearing segment, round-trips through all three routes. -/
theorem c9_witness :
    (∀ b ∈ [97, 32, 98, 47, 99], b < 256) ∧
      pyUnquote (readRoute [97, 32, 98, 47, 99]).encodedSegment = [97, 32, 98, 47, 99] ∧
      pyUnquote (listRoute [97, 32, 98, 47, 99]).encodedSegment = [97, 32, 98, 47, 99] ∧
      pyUnquote (existsRoute [97, 32, 98, 47, 99]).encodedSegment = [97, 32, 98, 47, 99] :=
  ⟨by decide, c9_percent_encoding_round_trip [97, 32, 98, 47, 99] (by decide)⟩

/-- C10: write transmits only the final path component as the uploaded
filename: the directory prefix is discarded client-side, so two writes to
paths differing only in directory prefix send identical upload requests. -/
theorem c10_write_sends_basename (d1 d2 name content : List Nat)
    (h : ∀ b ∈ name, b ≠ 47) :
    writeUploadRequest (d1 ++ 47 :: name) content =
        writeUploadRequest (d2 ++ 47 :: name) content ∧
      (writeUploadRequest (d1 ++ 47 :: name) content).filename = name := by
  constructor
  · simp [writeUploadRequest, basenameBytes_append_slash _ _ h]
  · simp [writeUploadRequest, basenameBytes_append_slash _ _ h]

/-- C10 witness: writes to "tmp/f.txt" and "var/f.txt" (bytes) send the same
upload request, whose filename is "f.txt" (bytes 102 46 116 120 116). -/
theorem c10_witness :
    (∀ b ∈ [102, 46, 116, 120, 116], b ≠ 47) ∧
      writeUploadRequest ([116, 109, 112] ++ 47 :: [102, 46, 116, 120, 116]) [1, 2] =
          writeUploadRequest ([118, 97, 114] ++ 47 :: [102, 46, 116, 120, 116]) [1, 2] ∧
      (writeUploadRequest ([116, 109, 112] ++ 47 :: [102, 46, 116, 120, 116]) [1, 2]).filename =
        [102, 46, 116, 120, 116] :=
  ⟨by decide, c10_write_sends_basename [116, 109, 112] [118, 97, 114]
    [102, 46, 116, 120, 116] [1, 2] (by decide)⟩

/-! ## Reverse-proxy router (sandbox-router/sandbox_router.py)

`proxy_request` resolves every request from its headers, with no state kept
between requests.  The upstream HTTP hop is passed in as a function from the
built request to its outcome.  Python's `str.isalnum` accepts any Unicode
alphanumeric; we model the ASCII fragment (the claims only involve ASCII),
so `pyIsAlnumChar` is `Char.isAlpha || Char.isDigit`. -/

/-- Character accepted by Python's `str.isalnum` (ASCII fragment). -/
def pyIsAlnumChar (c : Char) : Bool := c.isAlpha || c.isDigit

/-- Embedding of `s.isalnum()`: non-empty and every character alphanumeric. -/
def pyIsAlnum (s : List Char) : Bool := !s.isEmpty && s.all pyIsAlnumChar

/-- The router's namespace check: `namespace.replace("-", "").isalnum()`. -/
def namespaceOk (ns : String) : Bool :=
  pyIsAlnum (ns.data.filter (fun c => !(c == '-')))

/-- First-match lookup in an association list, embedding both
`request.headers.get(key)` and dictionary `.get(key)`. -/
def assocGet (l : List (String × String)) (k : String) : Option String :=
  (l.find? (fun p => p.1 == k)).map (fun p => p.2)

/-- Digits-to-number fold for `int()` on a decimal string. -/
def digitsToNat (s : List Char) : Nat :=
  s.foldl (fun a c => 10 * a + (c.toNat - 48)) 0

/-- Embedding of Python `int(s)` on strings: optional surrounding spaces,
optional sign, then at least one decimal digit; anything else raises
`ValueError`, modelled as `none`. -/
def pyIntOfString (s : String) : Option Int :=
  let t := (((s.data.dropWhile (fun c => c == ' ')).reverse.dropWhile
    (fun c => c == ' ')).reverse)
  match t with
  | '+' :: ds =>
    if ds ≠ [] ∧ ds.all Char.isDigit then some (digitsToNat ds) else none
  | '-' :: ds =>
    if ds ≠ [] ∧ ds.all Char.isDigit then some (-(digitsToNat ds : Int)) else none
  | ds =>
    if ds ≠ [] ∧ ds.all Char.isDigit then some (digitsToNat ds) else none

/-- A request as the router sees it: method, path (without the leading
slash, as captured by the `{full_path:path}` route), headers, body. -/
structure RouterRequest where
  method : String
  path : String
  headers : List (String × String)
  body : List Nat

/-- The upstream request `proxy_request` builds with `client.build_request`
before sending.  The target URL is `http://{host}:{port}/{path}`. -/
structure BuiltRequest where
  method : String
  host : String
  port : Int
  path : String
  body : List Nat
  deriving DecidableEq

/-- Outcome of the upstream hop: a streamed response, `httpx.ConnectError`,
or any other exception. -/
inductive UpstreamResult
  | response (status : Nat) (body : List Nat)
  | connectError
  | otherError
  deriving DecidableEq

/-- Body of the router's answer: an HTTPException JSON detail, the fixed
health-check object with field status = ok, or streamed upstream bytes. -/
inductive RouterBody
  | jsonDetail (detail : String)
  | statusOk
  | upstreamBytes (bs : List Nat)
  deriving DecidableEq

/-- An HTTP answer from the router. -/
structure RouterResponse where
  status : Nat
  body : RouterBody
  deriving DecidableEq

/-- Effective namespace: header value, or "default" when absent. -/
def effNamespace (req : RouterRequest) : String :=
  (assocGet req.headers "X-Sandbox-Namespace").getD "default"

/-- Effective port: `int` of the header when present (`none` = ValueError),
or the default 8888 when the header is absent. -/
def effPort (req : RouterRequest) : Option Int :=
  match assocGet req.headers "X-Sandbox-Port" with
  | none => some 8888
  | some s => pyIntOfString s

/-- The upstream request built from the resolved identity values; the host
follows the fixed naming convention id.namespace.svc.cluster.local. -/
def builtRequestOf (req : RouterRequest) (sid ns : String) (port : Int) :
    BuiltRequest :=
  { method := req.method
    host := sid ++ "." ++ ns ++ ".svc.cluster.local"
    port := port
    path := req.path
    body := req.body }

/-- Embedding of `proxy_request`.  Returns the router's answer and the
upstream request that was built and sent, `none` when the request was
rejected before any upstream request existed. -/
def proxyRequest (req : RouterRequest)
    (upstream : BuiltRequest → UpstreamResult) :
    RouterResponse × Option BuiltRequest :=
  match assocGet req.headers "X-Sandbox-ID" with
  | none =>
    ({ status := 400, body := .jsonDetail "X-Sandbox-ID header is required." },
      none)
  | some sid =>
    if sid = "" then
      ({ status := 400, body := .jsonDetail "X-Sandbox-ID header is required." },
        none)
    else if namespaceOk (effNamespace req) = false then
      ({ status := 400, body := .jsonDetail "Invalid namespace format." }, none)
    else
      match effPort req with
      | none =>
        ({ status := 400, body := .jsonDetail "Invalid port format." }, none)
      | some port =>
        let breq := builtRequestOf req sid (effNamespace req) port
        match upstream breq with
        | .response s bs =>
          ({ status := s, body := .upstreamBytes bs }, some breq)
        | .connectError =>
          ({ status := 502,
             body := .jsonDetail
               ("Could not connect to the backend sandbox: " ++ sid) },
            some breq)
        | .otherError =>
          ({ status := 500,
             body := .jsonDetail "An internal error occurred in the proxy." },
            some breq)

/-- Embedding of the FastAPI app dispatch: `GET /healthz` is its own route
answered before the catch-all proxy route; the catch-all accepts the five
listed methods. -/
def routerApp (req : RouterRequest)
    (upstream : BuiltRequest → UpstreamResult) :
    RouterResponse × Option BuiltRequest :=
  if req.method = "GET" ∧ req.path = "healthz" then
    ({ status := 200, body := .statusOk }, none)
  else if req.method = "GET" ∨ req.method = "POST" ∨ req.method = "PUT" ∨
      req.method = "DELETE" ∨ req.method = "PATCH" then
    proxyRequest req upstream
  else
    ({ status := 405, body := .jsonDetail "Method Not Allowed" }, none)

/-! ## Claim theorems: C6 and C7 -/

/-- C6: any namespace header value containing a character outside the
allow-list (alphanumerics and the hyphen) is rejected with status 400 and no
upstream request is built or sent for it. -/
theorem c6_namespace_validation (req : RouterRequest)
    (upstream : BuiltRequest → UpstreamResult) (ns : String) (c : Char)
    (hhdr : assocGet req.headers "X-Sandbox-Namespace" = some ns)
    (hmem : c ∈ ns.data) (halnum : pyIsAlnumChar c = false) (hdash : c ≠ '-') :
    (proxyRequest req upstream).1.status = 400 ∧
      (proxyRequest req upstream).2 = none := by
  have hns : namespaceOk (effNamespace req) = false := by
    have hc : c ∈ ns.data.filter (fun c => !(c == '-')) := by
      simp [List.mem_filter, hmem, hdash]
    have hall : (ns.data.filter (fun c => !(c == '-'))).all pyIsAlnumChar = false := by
      rcases Bool.eq_false_or_eq_true
          ((ns.data.filter (fun c => !(c == '-'))).all pyIsAlnumChar) with he | he
      · exact absurd ((List.all_eq_true.mp he) c hc) (by simp [halnum])
      · exact he
    simp [namespaceOk, effNamespace, hhdr, pyIsAlnum, hall]
  unfold proxyRequest
  match hsid : assocGet req.headers "X-Sandbox-ID" with
  | none => exact ⟨rfl, rfl⟩
  | some sid =>
    by_cases hempty : sid = ""
    · simp [hempty]
    · simp [hempty, hns]

/-- C6 witness: a request whose namespace header is "bad.ns" (containing
the illegal character dot) gets status 400 and no upstream request. -/
theorem c6_witness :
    (let req : RouterRequest :=
      { method := "GET", path := "execute",
        headers := [("X-Sandbox-ID", "s1"), ("X-Sandbox-Namespace", "bad.ns")],
        body := [] }
     (proxyRequest req (fun _ => .response 200 [])).1.status = 400 ∧
       (proxyRequest req (fun _ => .response 200 [])).2 = none) :=
  c6_namespace_validation _ _ "bad.ns" '.' (by rfl) (by decide) (by decide)
    (by decide)

/-- C7 counterexample setup: a request carrying only the X-Sandbox-ID
header, with the X-Sandbox-Namespace and X-Sandbox-Port identity headers
absent. -/
def c7OnlyIdRequest : RouterRequest :=
  { method := "GET", path := "execute",
    headers := [("X-Sandbox-ID", "s1")], body := [] }

/-- C7 counterexample upstream: the target answers 200 with empty body. -/
def c7OkUpstream : BuiltRequest → UpstreamResult := fun _ => .response 200 []

/-- C7: the claim (with its source sentence requiring the headers
X-Sandbox-ID, X-Sandbox-Namespace and X-Sandbox-Port) says a request missing
a required identity header is answered 400.  False on the code: a request
missing both X-Sandbox-Namespace and X-Sandbox-Port is not rejected — the
router fills in the defaults ("default", 8888), builds the upstream request
and answers with the upstream status (here 200). -/
theorem c7_missing_headers_not_rejected :
    (routerApp c7OnlyIdRequest c7OkUpstream).1.status = 200 ∧
      (routerApp c7OnlyIdRequest c7OkUpstream).2 =
        some { method := "GET", host := "s1.default.svc.cluster.local",
               port := 8888, path := "execute", body := [] } :=
  ⟨rfl, rfl⟩

/-- C7 (amended): only X-Sandbox-ID is required — missing (or empty) it
gives 400, while missing namespace/port headers are filled with the defaults
"default" and 8888; an upstream connection failure gives 502 with a detail
naming the sandbox id; any other upstream error gives 500; and GET /healthz
is answered 200 with the fixed status-ok body regardless of headers, body
and upstream behaviour. -/
theorem c7_failure_mapping_amended (req : RouterRequest)
    (upstream : BuiltRequest → UpstreamResult) :
    (assocGet req.headers "X-Sandbox-ID" = none →
      proxyRequest req upstream =
        ({ status := 400, body := .jsonDetail "X-Sandbox-ID header is required." },
          none)) ∧
    (∀ sid port, assocGet req.headers "X-Sandbox-ID" = some sid → sid ≠ "" →
      namespaceOk (effNamespace req) = true → effPort req = some port →
      upstream (builtRequestOf req sid (effNamespace req) port) = .connectError →
      proxyRequest req upstream =
        ({ status := 502,
           body := .jsonDetail
             ("Could not connect to the backend sandbox: " ++ sid) },
          some (builtRequestOf req sid (effNamespace req) port))) ∧
    (∀ sid port, assocGet req.headers "X-Sandbox-ID" = some sid → sid ≠ "" →
      namespaceOk (effNamespace req) = true → effPort req = some port →
      upstream (builtRequestOf req sid (effNamespace req) port) = .otherError →
      proxyRequest req upstream =
        ({ status := 500,
           body := .jsonDetail "An internal error occurred in the proxy." },
          some (builtRequestOf req sid (effNamespace req) port))) ∧
    (∀ sid, assocGet req.headers "X-Sandbox-ID" = some sid → sid ≠ "" →
      assocGet req.headers "X-Sandbox-Namespace" = none →
      assocGet req.headers "X-Sandbox-Port" = none →
      (proxyRequest req upstream).2 =
        some (builtRequestOf req sid "default" 8888)) ∧
    (req.method = "GET" → req.path = "healthz" →
      routerApp req upstream = ({ status := 200, body := .statusOk }, none)) := by
  refine ⟨?_, ?_, ?_, ?_, ?_⟩
  · intro hnone
    unfold proxyRequest
    rw [hnone]
  · intro sid port hsid hne hns hport hup
    unfold proxyRequest
    rw [hsid]
    simp [hne, hns, hport, hup]
  · intro sid port hsid hne hns hport hup
    unfold proxyRequest
    rw [hsid]
    simp [hne, hns, hport, hup]
  · intro sid hsid hne hnons hnoport
    have hns : namespaceOk (effNamespace req) = true := by
      simp [effNamespace, hnons, namespaceOk]
      decide
    have hport : effPort req = some 8888 := by
      simp [effPort, hnoport]
    unfold proxyRequest
    rw [hsid]
    simp only [hne, if_neg (by simp [hne] : ¬ sid = ""), hns]
    rw [hport]
    simp only [effNamespace, hnons, Option.getD_none]
    cases upstream (builtRequestOf req sid "default" 8888) <;> simp
  · intro hm hp
    unfold routerApp
    simp [hm, hp]

/-- C7 witness for the amended mapping: concrete requests exercise the
missing-id 400, the connect-error 502 naming the id, the other-error 500,
the default namespace and port, and the unconditional healthz answer. -/
theorem c7_witness :
    (proxyRequest { method := "GET", path := "x", headers := [], body := [] }
        c7OkUpstream =
      ({ status := 400, body := .jsonDetail "X-Sandbox-ID header is required." },
        none)) ∧
    (proxyRequest
        { method := "GET", path := "x",
          headers := [("X-Sandbox-ID", "sb")], body := [] }
        (fun _ => .connectError) =
      ({ status := 502,
         body := .jsonDetail "Could not connect to the backend sandbox: sb" },
        some { method := "GET", host := "sb.default.svc.cluster.local",
               port := 8888, path := "x", body := [] })) ∧
    (routerApp
        { method := "GET", path := "healthz",
          headers := [("X-Sandbox-Namespace", "!!")], body := [] }
        (fun _ => .otherError) =
      ({ status := 200, body := .statusOk }, none)) := by
  refine ⟨?_, ?_, ?_⟩
  · exact (c7_failure_mapping_amended
      { method := "GET", path := "x", headers := [], body := [] }
      c7OkUpstream).1 rfl
  · exact ((c7_failure_mapping_amended
      { method := "GET", path := "x",
        headers := [("X-Sandbox-ID", "sb")], body := [] }
      (fun _ => .connectError)).2.1 "sb" 8888 rfl (by decide) (by decide) rfl
      rfl)
  · exact ((c7_failure_mapping_amended
      { method := "GET", path := "healthz",
        headers := [("X-Sandbox-Namespace", "!!")], body := [] : RouterRequest }
      (fun _ => .otherError)).2.2.2.2 rfl rfl)

/-! ## Session lifecycle (SandboxClient)

The client object's mutable fields become a `ClientState`; the cluster is a
`World` holding the set of existing claims; watch streams, the free local
port, the tunnel subprocess's behaviour and injected cleanup failures are
an `EnterEnv`.  Every operation returns its result together with the list
of external calls it issued (the trace) and the error messages it logged. -/

/-- Constructor arguments of `SandboxClient.__init__` that the lifecycle
reads (tracing is reduced to whether a tracer manager is installed). -/
structure ClientConfig where
  templateName : String
  namespaceName : String
  gatewayName : Option String
  gatewayNamespace : String
  apiUrl : Option String
  serverPort : Nat
  sandboxReadyTimeout : Nat
  gatewayReadyTimeout : Nat
  portForwardReadyTimeout : Nat
  enableTracing : Bool
  deriving DecidableEq

/-- The `kubectl port-forward` subprocess handle owned by a session. -/
structure TunnelProc where
  localPort : Nat
  alive : Bool
  deriving DecidableEq

/-- The client's mutable state after `__init__`. -/
structure ClientState where
  cfg : ClientConfig
  baseUrl : Option String
  portForwardProcess : Option TunnelProc
  claimName : Option String
  sandboxName : Option String
  podName : Option String
  annots : Option (List (String × String))
  hasTracer : Bool
  deriving DecidableEq

/-- State right after `__init__`: `base_url = api_url` (discovery skipped
when provided), no subprocess, no claim. -/
def initState (cfg : ClientConfig) : ClientState :=
  { cfg := cfg
    baseUrl := cfg.apiUrl
    portForwardProcess := none
    claimName := none
    sandboxName := none
    podName := none
    annots := none
    hasTracer := cfg.enableTracing }

/-- `is_ready`: true exactly when `base_url` is not None. -/
def isReady (st : ClientState) : Bool := st.baseUrl.isSome

/-- The cluster: the set of existing claim resources, by name.  Claim names
are unique in a cluster, so deletion removes every entry with the name. -/
structure World where
  claims : List String
  deriving DecidableEq

/-- External calls a session issues, in order. -/
inductive ApiCall
  | createClaim (name : String)
  | watchSandbox (name : String)
  | watchGateway (name : String)
  | spawnTunnel (localPort : Nat)
  | terminateTunnel
  | killTunnel
  | deleteClaim (name : String)
  deriving DecidableEq

/-- Recogniser for claim-deletion calls in a trace. -/
def isDeleteCall : ApiCall → Bool
  | .deleteClaim _ => true
  | _ => false

/-- Recogniser for gateway-watch calls in a trace. -/
def isWatchGatewayCall : ApiCall → Bool
  | .watchGateway _ => true
  | _ => false

/-- Recogniser for tunnel-subprocess spawns in a trace. -/
def isSpawnTunnelCall : ApiCall → Bool
  | .spawnTunnel _ => true
  | _ => false

/-- Errors raised by acquisition (`TimeoutError` and `RuntimeError`
variants in the Python code). -/
inductive SbxError
  | readinessTimeout
  | gatewayTimeout
  | tunnelTimeout
  | tunnelCrashed (stderr : String)
  | missingClaim
  | missingSandboxName
  deriving DecidableEq

/-- Injected behaviour of the delete API call (besides natural absence). -/
inductive DeleteGlitch
  | normal
  | apiError (status : Nat)
  | otherError
  deriving DecidableEq

/-- Injected failures of the cleanup steps (each step in `__exit__` has its
own try/except). -/
structure ExitGlitch where
  terminateRaises : Bool
  waitTimesOut : Bool
  delete : DeleteGlitch
  tracerRaises : Bool
  deriving DecidableEq

/-- No injected failures: the normal cleanup environment. -/
def gClean : ExitGlitch :=
  { terminateRaises := false, waitTimesOut := false,
    delete := .normal, tracerRaises := false }

/-- Decidable equality for `Except`, so step results can be compared by
evaluation in witnesses. -/
instance exceptDecEq {ε α : Type} [DecidableEq ε] [DecidableEq α] :
    DecidableEq (Except ε α) := fun x y =>
  match x, y with
  | .ok a, .ok b =>
    if h : a = b then isTrue (by rw [h]) else isFalse (by simp [h])
  | .error a, .error b =>
    if h : a = b then isTrue (by rw [h]) else isFalse (by simp [h])
  | .ok _, .error _ => isFalse (by simp)
  | .error _, .ok _ => isFalse (by simp)

/-- Result of one lifecycle step. -/
structure ExitResult where
  raised : Except SbxError Unit
  state : ClientState
  world : World
  trace : List ApiCall
  logs : List String
  deriving DecidableEq

/-- First `__exit__` step: stop the port-forward subprocess if it exists.
The try/except around it turns a failure into a logged message. -/
def exitTunnelStep (st : ClientState) (g : ExitGlitch) :
    ClientState × List ApiCall × List String :=
  match st.portForwardProcess with
  | none => (st, ([] : List ApiCall), ([] : List String))
  | some p =>
    if p.alive = false then
      -- terminate() on an already-finished process sends no signal.
      (st, [ApiCall.terminateTunnel], [])
    else if g.terminateRaises then
      (st, [ApiCall.terminateTunnel], ["Failed to stop port-forwarding"])
    else if g.waitTimesOut then
      ({ st with portForwardProcess := some { p with alive := false } },
        [ApiCall.terminateTunnel, ApiCall.killTunnel], [])
    else
      ({ st with portForwardProcess := some { p with alive := false } },
        [ApiCall.terminateTunnel], [])

/-- Second `__exit__` step: delete the SandboxClaim if one was created.
A 404 answer (claim absent) is silently accepted; any other failure is
logged, not raised. -/
def exitDeleteStep (claimName : Option String) (w : World) (g : ExitGlitch) :
    World × List ApiCall × List String :=
  match claimName with
  | none => (w, ([] : List ApiCall), ([] : List String))
  | some nm =>
    match g.delete with
    | .apiError s =>
      (w, [ApiCall.deleteClaim nm],
        if s = 404 then [] else ["Error deleting sandbox claim"])
    | .otherError =>
      (w, [ApiCall.deleteClaim nm], ["Unexpected error deleting sandbox claim"])
    | .normal =>
      if nm ∈ w.claims then
        ({ claims := w.claims.filter (fun c => !(c == nm)) },
          [ApiCall.deleteClaim nm], [])
      else
        -- The API answers 404; treated as success.
        (w, [ApiCall.deleteClaim nm], [])

/-- Embedding of `SandboxClient.__exit__`.  Each cleanup step is guarded by
its own try/except in the source: failures become logged messages, never
raised errors.  The third step ends the lifecycle tracing span. -/
def sandboxExit (st : ClientState) (w : World) (g : ExitGlitch) : ExitResult :=
  let t := exitTunnelStep st g
  let d := exitDeleteStep t.1.claimName w g
  let logs3 :=
    if t.1.hasTracer && g.tracerRaises then ["Failed to end tracing span"] else []
  { raised := Except.ok ()
    state := t.1
    world := d.1
    trace := t.2.1 ++ d.2.1
    logs := t.2.2 ++ d.2.2 ++ logs3 }

/-- A status condition of the Sandbox resource. -/
structure SbxCondition where
  condType : String
  condStatus : String
  deriving DecidableEq

/-- The watched Sandbox object: metadata name, metadata annotations,
status conditions. -/
structure SandboxObject where
  name : Option String
  annots : List (String × String)
  conditions : List SbxCondition
  deriving DecidableEq

/-- One event of the sandbox watch stream (delivered before the deadline). -/
structure WatchEvent where
  eventType : String
  object : SandboxObject
  deriving DecidableEq

/-- The annotation key the client prefers for the pod name. -/
def podNameAnnotKey : String := "agents.x-k8s.io/pod-name"

/-- The condition scan of `_wait_for_sandbox_ready`: some condition has
type Ready with status True. -/
def hasReadyCondition (o : SandboxObject) : Bool :=
  o.conditions.any (fun c => c.condType == "Ready" && c.condStatus == "True")

/-- An event ends the wait when its type is ADDED or MODIFIED and its
object carries the Ready condition. -/
def eventQualifies (e : WatchEvent) : Bool :=
  (e.eventType == "ADDED" || e.eventType == "MODIFIED") &&
    hasReadyCondition e.object

/-- Result of an acquisition step. -/
structure StepResult where
  result : Except SbxError ClientState
  world : World
  trace : List ApiCall
  logs : List String
  deriving DecidableEq

/-- Claim name generated by `_create_claim` from the random suffix. -/
def claimNameFor (suffix : String) : String := "sandbox-claim-" ++ suffix

/-- Embedding of `_create_claim`: record the generated name, submit the
create call (which makes the claim exist in the cluster). -/
def createClaim (st : ClientState) (w : World) (suffix : String) :
    ClientState × World × List ApiCall :=
  ({ st with claimName := some (claimNameFor suffix) },
    { claims := claimNameFor suffix :: w.claims },
    [ApiCall.createClaim (claimNameFor suffix)])

/-- Embedding of `_wait_for_sandbox_ready`: scan the event stream for the
first qualifying event; on success extract sandbox name, annotations and
the pod name (annotation preferred, falling back to the sandbox name); if
the stream ends without one, run `__exit__` and raise the timeout. -/
def waitForSandboxReady (st : ClientState) (w : World)
    (events : List WatchEvent) (g : ExitGlitch) : StepResult :=
  match st.claimName with
  | none => { result := .error .missingClaim, world := w, trace := [], logs := [] }
  | some nm =>
    match events.find? eventQualifies with
    | some e =>
      match e.object.name with
      | none =>
        { result := .error .missingSandboxName, world := w,
          trace := [ApiCall.watchSandbox nm], logs := [] }
      | some n =>
        let pod :=
          match assocGet e.object.annots podNameAnnotKey with
          | some p => if p = "" then n else p
          | none => n
        let st2 := { st with
          sandboxName := some n
          annots := some e.object.annots
          podName := some pod }
        { result := .ok st2, world := w,
          trace := [ApiCall.watchSandbox nm], logs := [] }
    | none =>
      let ex := sandboxExit st w g
      { result := .error .readinessTimeout, world := ex.world,
        trace := ApiCall.watchSandbox nm :: ex.trace, logs := ex.logs }

/-- One address of the watched Gateway resource. -/
structure GatewayAddress where
  value : Option String
  deriving DecidableEq

/-- The watched Gateway object: status.addresses. -/
structure GatewayObject where
  addresses : List GatewayAddress
  deriving DecidableEq

/-- One event of the gateway watch stream. -/
structure GatewayEvent where
  eventType : String
  object : GatewayObject
  deriving DecidableEq

/-- A gateway event ends the wait when its type is ADDED or MODIFIED, its
address list is non-empty and the first address has a non-empty value. -/
def gatewayQualifies (e : GatewayEvent) : Bool :=
  (e.eventType == "ADDED" || e.eventType == "MODIFIED") &&
    (match e.object.addresses with
     | a :: _ => match a.value with | some v => !(v == "") | none => false
     | [] => false)

/-- First address value of a gateway event (meaningful for qualifying
events). -/
def gatewayIp (e : GatewayEvent) : String :=
  match e.object.addresses with
  | a :: _ => a.value.getD ""
  | [] => ""

/-- Embedding of `_wait_for_gateway_ip`: return unchanged when a base URL
is already configured; otherwise watch until the first qualifying event and
set the base URL from its first address.  A timeout here raises without
running cleanup (the code has no `__exit__` call on this path). -/
def waitForGatewayIp (st : ClientState) (events : List GatewayEvent) :
    Except SbxError ClientState × List ApiCall :=
  match st.baseUrl with
  | some _ => (.ok st, [])
  | none =>
    let gw := st.cfg.gatewayName.getD ""
    match events.find? gatewayQualifies with
    | some e =>
      (.ok { st with baseUrl := some ("http://" ++ gatewayIp e) },
        [ApiCall.watchGateway gw])
    | none => (.error .gatewayTimeout, [ApiCall.watchGateway gw])

/-- Behaviour of the spawned tunnel subprocess during the readiness poll:
the local port becomes connectable, the subprocess exits first (captured
stderr), or neither happens before the timeout. -/
inductive TunnelBehavior
  | connects
  | crashes (stderr : String)
  | timesOut
  deriving DecidableEq

/-- External inputs of one acquisition. -/
structure EnterEnv where
  sandboxEvents : List WatchEvent
  gatewayEvents : List GatewayEvent
  freePort : Nat
  tunnel : TunnelBehavior
  exitGlitch : ExitGlitch
  deriving DecidableEq

/-- Embedding of `_start_and_wait_for_port_forward`: allocate a free local
port, spawn the subprocess, then poll.  A crash raises immediately with the
captured stderr (no cleanup call on this path in the code); a successful
connect sets the 127.0.0.1 base URL; a timeout runs `__exit__` and raises. -/
def startPortForward (st : ClientState) (w : World) (env : EnterEnv) :
    StepResult :=
  let port := env.freePort
  let st1 := { st with
    portForwardProcess := some { localPort := port, alive := true } }
  match env.tunnel with
  | .crashes stderr =>
    { result := .error (.tunnelCrashed stderr), world := w,
      trace := [ApiCall.spawnTunnel port], logs := [] }
  | .connects =>
    { result := .ok { st1 with
        baseUrl := some ("http://127.0.0.1:" ++ toString port) },
      world := w, trace := [ApiCall.spawnTunnel port], logs := [] }
  | .timesOut =>
    let ex := sandboxExit st1 w env.exitGlitch
    { result := .error .tunnelTimeout, world := ex.world,
      trace := ApiCall.spawnTunnel port :: ex.trace, logs := ex.logs }

/-- Embedding of `SandboxClient.__enter__`: create the claim, wait for the
sandbox to be ready, then select exactly one connectivity strategy in
priority order: explicit URL (base_url already set), gateway discovery
(gateway_name set), local tunnel (the default). -/
def sandboxEnter (cfg : ClientConfig) (suffix : String) (w : World)
    (env : EnterEnv) : StepResult :=
  let (st1, w1, tr1) := createClaim (initState cfg) w suffix
  let wres := waitForSandboxReady st1 w1 env.sandboxEvents env.exitGlitch
  match wres.result with
  | .error e =>
    { result := .error e, world := wres.world, trace := tr1 ++ wres.trace,
      logs := wres.logs }
  | .ok st2 =>
    match st2.baseUrl with
    | some _ =>
      -- Case 1: API URL provided manually; use it as-is.
      { result := .ok st2, world := wres.world, trace := tr1 ++ wres.trace,
        logs := wres.logs }
    | none =>
      match st2.cfg.gatewayName with
      | some _ =>
        -- Case 2: gateway discovery.
        let (r, tr3) := waitForGatewayIp st2 env.gatewayEvents
        { result := r, world := wres.world,
          trace := tr1 ++ wres.trace ++ tr3, logs := wres.logs }
      | none =>
        -- Case 3: developer mode, port-forward to the router.
        let pres := startPortForward st2 wres.world env
        { result := pres.result, world := pres.world,
          trace := tr1 ++ wres.trace ++ pres.trace,
          logs := wres.logs ++ pres.logs }

/-! ## Lifecycle helper lemmas -/

theorem exitTunnelStep_pf_none (st : ClientState) (g : ExitGlitch)
    (hpf : st.portForwardProcess = none) :
    exitTunnelStep st g = (st, [], []) := by
  unfold exitTunnelStep
  rw [hpf]

theorem exitTunnelStep_claimName (st : ClientState) (g : ExitGlitch) :
    (exitTunnelStep st g).1.claimName = st.claimName := by
  unfold exitTunnelStep
  cases hpf : st.portForwardProcess with
  | none => rfl
  | some p =>
    by_cases ha : p.alive = false <;>
      by_cases h1 : g.terminateRaises = true <;>
        by_cases h2 : g.waitTimesOut = true <;>
          simp [ha, h1, h2]

theorem exitTunnelStep_hasTracer (st : ClientState) (g : ExitGlitch) :
    (exitTunnelStep st g).1.hasTracer = st.hasTracer := by
  unfold exitTunnelStep
  cases hpf : st.portForwardProcess with
  | none => rfl
  | some p =>
    by_cases ha : p.alive = false <;>
      by_cases h1 : g.terminateRaises = true <;>
        by_cases h2 : g.waitTimesOut = true <;>
          simp [ha, h1, h2]

theorem exitTunnelStep_baseUrl (st : ClientState) (g : ExitGlitch) :
    (exitTunnelStep st g).1.baseUrl = st.baseUrl := by
  unfold exitTunnelStep
  cases hpf : st.portForwardProcess with
  | none => rfl
  | some p =>
    by_cases ha : p.alive = false <;>
      by_cases h1 : g.terminateRaises = true <;>
        by_cases h2 : g.waitTimesOut = true <;>
          simp [ha, h1, h2]

theorem exitTunnelStep_clean_logs (st : ClientState) :
    (exitTunnelStep st gClean).2.2 = [] := by
  unfold exitTunnelStep
  cases hpf : st.portForwardProcess with
  | none => rfl
  | some p => by_cases ha : p.alive = false <;> simp [ha, gClean]

theorem exitTunnelStep_dead (s : ClientState) (g : ExitGlitch)
    (h : s.portForwardProcess = none ∨
      ∃ p, s.portForwardProcess = some p ∧ p.alive = false) :
    (exitTunnelStep s g).1 = s ∧ (exitTunnelStep s g).2.2 = [] := by
  unfold exitTunnelStep
  rcases h with h | ⟨p, hp, ha⟩
  · rw [h]
    exact ⟨rfl, rfl⟩
  · rw [hp]
    simp [ha]

theorem exitTunnelStep_clean_dead (st : ClientState) :
    (exitTunnelStep st gClean).1.portForwardProcess = none ∨
      ∃ p, (exitTunnelStep st gClean).1.portForwardProcess = some p ∧
        p.alive = false := by
  unfold exitTunnelStep
  cases hpf : st.portForwardProcess with
  | none =>
    left
    simpa using hpf
  | some p =>
    by_cases ha : p.alive = false
    · simp only [ha]
      right
      exact ⟨p, by simpa using hpf, ha⟩
    · simp only [ha, gClean, Bool.false_eq_true, if_false]
      right
      exact ⟨{ p with alive := false }, by simp [ha], rfl⟩

theorem exitDeleteStep_trace_some (nm : String) (w : World) (g : ExitGlitch) :
    (exitDeleteStep (some nm) w g).2.1 = [ApiCall.deleteClaim nm] := by
  unfold exitDeleteStep
  cases g.delete with
  | apiError s => rfl
  | otherError => rfl
  | normal => by_cases hm : nm ∈ w.claims <;> simp [hm]

theorem exitDeleteStep_clean_absent (nm : String) (w : World)
    (h : nm ∉ w.claims) :
    exitDeleteStep (some nm) w gClean = (w, [ApiCall.deleteClaim nm], []) := by
  unfold exitDeleteStep
  simp [gClean, h]

theorem exitDeleteStep_clean_removes (nm : String) (w : World) :
    nm ∉ (exitDeleteStep (some nm) w gClean).1.claims := by
  unfold exitDeleteStep
  by_cases h : nm ∈ w.claims <;> simp [gClean, h, List.mem_filter]

theorem exitDeleteStep_clean_logs (nm : Option String) (w : World) :
    (exitDeleteStep nm w gClean).2.2 = [] := by
  unfold exitDeleteStep
  cases nm with
  | none => rfl
  | some nm => by_cases h : nm ∈ w.claims <;> simp [gClean, h]

theorem waitForSandboxReady_timeout (st : ClientState) (w : World)
    (events : List WatchEvent) (g : ExitGlitch) (nm : String)
    (hcn : st.claimName = some nm)
    (hfind : events.find? eventQualifies = none) :
    waitForSandboxReady st w events g =
      { result := .error .readinessTimeout,
        world := (sandboxExit st w g).world,
        trace := ApiCall.watchSandbox nm :: (sandboxExit st w g).trace,
        logs := (sandboxExit st w g).logs } := by
  unfold waitForSandboxReady
  rw [hcn, hfind]

/-! ## Claim theorems: C1 and C4 -/

/-- C1: if no watch event carries a Ready=True condition, acquisition fails
with the readiness timeout error, and before the error propagates the
cleanup has run so that exactly one claim-deletion call appears in the
trace. -/
theorem c1_readiness_timeout_deletes_claim_once (cfg : ClientConfig)
    (suffix : String) (w : World) (env : EnterEnv)
    (h : ∀ e ∈ env.sandboxEvents, hasReadyCondition e.object = false) :
    (sandboxEnter cfg suffix w env).result = .error .readinessTimeout ∧
      (sandboxEnter cfg suffix w env).trace.countP isDeleteCall = 1 := by
  have hfind : env.sandboxEvents.find? eventQualifies = none := by
    rw [List.find?_eq_none]
    intro e he
    simp [eventQualifies, h e he]
  unfold sandboxEnter
  simp only [createClaim, initState]
  rw [waitForSandboxReady_timeout _ _ _ _ (claimNameFor suffix) rfl hfind]
  refine ⟨rfl, ?_⟩
  show List.countP isDeleteCall
    (_ ++ ApiCall.watchSandbox (claimNameFor suffix) ::
      (sandboxExit _ _ env.exitGlitch).trace) = 1
  unfold sandboxExit
  rw [exitTunnelStep_pf_none _ _ rfl]
  simp only []
  rw [exitDeleteStep_trace_some (claimNameFor suffix) _ env.exitGlitch]
  simp [List.countP_cons, isDeleteCall]

/-- C1 witness configuration: no explicit URL, no gateway. -/
def c1Cfg : ClientConfig :=
  { templateName := "tpl", namespaceName := "default", gatewayName := none,
    gatewayNamespace := "default", apiUrl := none, serverPort := 8888,
    sandboxReadyTimeout := 180, gatewayReadyTimeout := 180,
    portForwardReadyTimeout := 30, enableTracing := false }

/-- C1 witness event: a MODIFIED update whose condition list carries
Ready=False only. -/
def c1Event : WatchEvent :=
  { eventType := "MODIFIED"
    object :=
      { name := some "sb"
        annots := []
        conditions := [{ condType := "Ready", condStatus := "False" }] } }

/-- C1 witness environment: the only event observed before the deadline
carries Ready=False, so the wait times out. -/
def c1Env : EnterEnv :=
  { sandboxEvents := [c1Event]
    gatewayEvents := []
    freePort := 5000
    tunnel := .timesOut
    exitGlitch := gClean }

/-- C1 witness: on a stream with a single non-Ready event, acquisition
raises the readiness timeout and the trace holds exactly one delete call. -/
theorem c1_witness :
    (∀ e ∈ c1Env.sandboxEvents, hasReadyCondition e.object = false) ∧
      (sandboxEnter c1Cfg "ab12cd34" { claims := [] } c1Env).result =
          .error .readinessTimeout ∧
        (sandboxEnter c1Cfg "ab12cd34" { claims := [] } c1Env).trace.countP
          isDeleteCall = 1 :=
  ⟨by decide,
    c1_readiness_timeout_deletes_claim_once c1Cfg "ab12cd34" { claims := [] }
      c1Env (by decide)⟩

/-- C4: release never raises (any injected failure of the terminate, delete
or tracer step is caught): deleting an already-absent claim logs nothing
and leaves the cluster unchanged (not-found is success); a non-404 API
error from the delete is logged, not raised; and running the release a
second time after a clean release changes neither state nor cluster and
surfaces no error and no log. -/
theorem c4_release_idempotent_never_raises (st : ClientState) (w : World)
    (g : ExitGlitch) (nm : String) :
    (sandboxExit st w g).raised = Except.ok () ∧
    (st.claimName = some nm → nm ∉ w.claims →
      (sandboxExit st w gClean).logs = [] ∧
        (sandboxExit st w gClean).world = w) ∧
    (∀ s, g.delete = .apiError s → s ≠ 404 →
      exitDeleteStep (some nm) w g =
        (w, [ApiCall.deleteClaim nm], ["Error deleting sandbox claim"])) ∧
    ((sandboxExit (sandboxExit st w gClean).state
        (sandboxExit st w gClean).world gClean).raised = Except.ok () ∧
      (sandboxExit (sandboxExit st w gClean).state
        (sandboxExit st w gClean).world gClean).logs = [] ∧
      (sandboxExit (sandboxExit st w gClean).state
          (sandboxExit st w gClean).world gClean).state =
        (sandboxExit st w gClean).state ∧
      (sandboxExit (sandboxExit st w gClean).state
          (sandboxExit st w gClean).world gClean).world =
        (sandboxExit st w gClean).world) := by
  refine ⟨rfl, ?_, ?_, ?_⟩
  · intro hcn habs
    have ht := exitTunnelStep_clean_logs st
    have hcn1 : (exitTunnelStep st gClean).1.claimName = some nm := by
      rw [exitTunnelStep_claimName]; exact hcn
    constructor
    · show (exitTunnelStep st gClean).2.2 ++
        (exitDeleteStep (exitTunnelStep st gClean).1.claimName w gClean).2.2 ++
        _ = []
      rw [ht, hcn1, exitDeleteStep_clean_absent nm w habs]
      simp [gClean]
    · show (exitDeleteStep (exitTunnelStep st gClean).1.claimName w gClean).1 = w
      rw [hcn1, exitDeleteStep_clean_absent nm w habs]
  · intro s hg hs
    unfold exitDeleteStep
    rw [hg]
    simp [hs]
  · -- Second release after a clean release.
    have hdead := exitTunnelStep_clean_dead st
    have hfix := exitTunnelStep_dead (sandboxExit st w gClean).state gClean hdead
    have hstate : (sandboxExit st w gClean).state = (exitTunnelStep st gClean).1 :=
      rfl
    refine ⟨rfl, ?_, ?_, ?_⟩
    · show (exitTunnelStep (sandboxExit st w gClean).state gClean).2.2 ++
        (exitDeleteStep
          (exitTunnelStep (sandboxExit st w gClean).state gClean).1.claimName
          (sandboxExit st w gClean).world gClean).2.2 ++ _ = []
      rw [hfix.2, exitTunnelStep_claimName]
      rw [exitDeleteStep_clean_logs]
      simp [gClean]
    · exact hfix.1
    · show (exitDeleteStep
          (exitTunnelStep (sandboxExit st w gClean).state gClean).1.claimName
          (sandboxExit st w gClean).world gClean).1 =
        (sandboxExit st w gClean).world
      rw [exitTunnelStep_claimName, hstate, exitTunnelStep_claimName]
      cases hcn : st.claimName with
      | none =>
        show (exitDeleteStep none _ gClean).1 = _
        rfl
      | some nm2 =>
        have hw : (sandboxExit st w gClean).world =
            (exitDeleteStep (some nm2) w gClean).1 := by
          show (exitDeleteStep (exitTunnelStep st gClean).1.claimName w gClean).1 =
            _
          rw [exitTunnelStep_claimName, hcn]
        rw [hw]
        exact (exitDeleteStep_clean_absent nm2 _
          (exitDeleteStep_clean_removes nm2 w)).symm ▸ rfl

/-- C4 witness configuration. -/
def c4Cfg : ClientConfig :=
  { templateName := "tpl", namespaceName := "default", gatewayName := none,
    gatewayNamespace := "default", apiUrl := none, serverPort := 8888,
    sandboxReadyTimeout := 180, gatewayReadyTimeout := 180,
    portForwardReadyTimeout := 30, enableTracing := false }

/-- C4 witness state: a session owning a live tunnel and a claim whose name
is absent from the cluster (already deleted). -/
def c4St : ClientState :=
  { cfg := c4Cfg
    baseUrl := some "http://127.0.0.1:5000"
    portForwardProcess := some { localPort := 5000, alive := true }
    claimName := some "sandbox-claim-ff00"
    sandboxName := some "sb"
    podName := some "sb"
    annots := some []
    hasTracer := false }

/-- C4 witness glitch: the delete call answers with a 500 ApiException. -/
def c4Glitch : ExitGlitch :=
  { terminateRaises := false, waitTimesOut := false,
    delete := .apiError 500, tracerRaises := false }

/-- C4 witness: even with a 500 from the delete call release raises
nothing; against a cluster without the claim, a clean release logs nothing
and leaves the cluster unchanged. -/
theorem c4_witness :
    (sandboxExit c4St { claims := [] } c4Glitch).raised = Except.ok () ∧
      (sandboxExit c4St { claims := [] } gClean).logs = [] ∧
        (sandboxExit c4St { claims := [] } gClean).world = { claims := [] } :=
  ⟨(c4_release_idempotent_never_raises c4St { claims := [] } c4Glitch
      "sandbox-claim-ff00").1,
    (c4_release_idempotent_never_raises c4St { claims := [] } gClean
      "sandbox-claim-ff00").2.1 rfl (by decide)⟩

/-! ## Trace-shape lemmas for strategy selection -/

theorem exitTunnelStep_trace_mem (st : ClientState) (g : ExitGlitch) (a : ApiCall)
    (ha : a ∈ (exitTunnelStep st g).2.1) :
    a = ApiCall.terminateTunnel ∨ a = ApiCall.killTunnel := by
  unfold exitTunnelStep at ha
  cases hpf : st.portForwardProcess with
  | none =>
    rw [hpf] at ha
    simp at ha
  | some p =>
    rw [hpf] at ha
    by_cases ha1 : p.alive = false <;>
      by_cases h1 : g.terminateRaises = true <;>
        by_cases h2 : g.waitTimesOut = true <;>
          simp [ha1, h1, h2] at ha <;> tauto

theorem exitDeleteStep_trace_mem (cn : Option String) (w : World)
    (g : ExitGlitch) (a : ApiCall) (ha : a ∈ (exitDeleteStep cn w g).2.1) :
    ∃ nm, a = ApiCall.deleteClaim nm := by
  unfold exitDeleteStep at ha
  cases cn with
  | none => simp at ha
  | some nm =>
    cases hg : g.delete with
    | apiError s =>
      simp only [hg] at ha
      simp at ha
      exact ⟨nm, ha⟩
    | otherError =>
      simp only [hg] at ha
      simp at ha
      exact ⟨nm, ha⟩
    | normal =>
      by_cases hm : nm ∈ w.claims <;> simp [hg, hm] at ha <;> exact ⟨nm, ha⟩

theorem sandboxExit_trace_mem (st : ClientState) (w : World) (g : ExitGlitch)
    (a : ApiCall) (ha : a ∈ (sandboxExit st w g).trace) :
    a = ApiCall.terminateTunnel ∨ a = ApiCall.killTunnel ∨
      ∃ nm, a = ApiCall.deleteClaim nm := by
  have : a ∈ (exitTunnelStep st g).2.1 ++
      (exitDeleteStep (exitTunnelStep st g).1.claimName w g).2.1 := ha
  rcases List.mem_append.mp this with h | h
  · rcases exitTunnelStep_trace_mem st g a h with h | h
    · exact Or.inl h
    · exact Or.inr (Or.inl h)
  · exact Or.inr (Or.inr (exitDeleteStep_trace_mem _ w g a h))

theorem waitForSandboxReady_trace_mem (st : ClientState) (w : World)
    (events : List WatchEvent) (g : ExitGlitch) (a : ApiCall)
    (ha : a ∈ (waitForSandboxReady st w events g).trace) :
    (∃ nm, a = ApiCall.watchSandbox nm) ∨ a = ApiCall.terminateTunnel ∨
      a = ApiCall.killTunnel ∨ ∃ nm, a = ApiCall.deleteClaim nm := by
  unfold waitForSandboxReady at ha
  cases hcn : st.claimName with
  | none => simp [hcn] at ha
  | some nm =>
    cases hfind : events.find? eventQualifies with
    | none =>
      simp only [hcn, hfind, List.mem_cons] at ha
      rcases ha with ha | ha
      · exact Or.inl ⟨nm, ha⟩
      · rcases sandboxExit_trace_mem st w g a ha with h | h | h
        · exact Or.inr (Or.inl h)
        · exact Or.inr (Or.inr (Or.inl h))
        · exact Or.inr (Or.inr (Or.inr h))
    | some e =>
      cases hn : e.object.name with
      | none =>
        simp only [hcn, hfind, hn] at ha
        simp at ha
        exact Or.inl ⟨nm, ha⟩
      | some n =>
        simp only [hcn, hfind, hn] at ha
        simp at ha
        exact Or.inl ⟨nm, ha⟩

theorem waitForGatewayIp_trace_mem (st : ClientState)
    (events : List GatewayEvent) (a : ApiCall)
    (ha : a ∈ (waitForGatewayIp st events).2) :
    ∃ nm, a = ApiCall.watchGateway nm := by
  unfold waitForGatewayIp at ha
  cases hb : st.baseUrl with
  | some u =>
    rw [hb] at ha
    simp at ha
  | none =>
    rw [hb] at ha
    cases hfind : events.find? gatewayQualifies with
    | none =>
      rw [hfind] at ha
      simp at ha
      exact ⟨_, ha⟩
    | some e =>
      rw [hfind] at ha
      simp at ha
      exact ⟨_, ha⟩

theorem startPortForward_trace_mem (st : ClientState) (w : World)
    (env : EnterEnv) (a : ApiCall)
    (ha : a ∈ (startPortForward st w env).trace) :
    a = ApiCall.spawnTunnel env.freePort ∨ a = ApiCall.terminateTunnel ∨
      a = ApiCall.killTunnel ∨ ∃ nm, a = ApiCall.deleteClaim nm := by
  unfold startPortForward at ha
  cases htun : env.tunnel with
  | crashes stderr =>
    rw [htun] at ha
    simp at ha
    exact Or.inl ha
  | connects =>
    rw [htun] at ha
    simp at ha
    exact Or.inl ha
  | timesOut =>
    rw [htun] at ha
    simp only [List.mem_cons] at ha
    rcases ha with ha | ha
    · exact Or.inl ha
    · rcases sandboxExit_trace_mem _ w env.exitGlitch a ha with h | h | h
      · exact Or.inr (Or.inl h)
      · exact Or.inr (Or.inr (Or.inl h))
      · exact Or.inr (Or.inr (Or.inr h))

theorem waitForSandboxReady_ok_fields (st : ClientState) (w : World)
    (events : List WatchEvent) (g : ExitGlitch) (st' : ClientState)
    (h : (waitForSandboxReady st w events g).result = .ok st') :
    st'.baseUrl = st.baseUrl ∧ st'.cfg = st.cfg ∧
      st'.claimName = st.claimName ∧
      st'.portForwardProcess = st.portForwardProcess := by
  unfold waitForSandboxReady at h
  cases hcn : st.claimName with
  | none => simp [hcn] at h
  | some nm =>
    cases hfind : events.find? eventQualifies with
    | none => simp [hcn, hfind] at h
    | some e =>
      cases hn : e.object.name with
      | none => simp [hcn, hfind, hn] at h
      | some n =>
        simp only [hcn, hfind, hn, Except.ok.injEq] at h
        subst h
        exact ⟨rfl, rfl, rfl, rfl⟩

theorem wait_count_watchGateway (st : ClientState) (w : World)
    (events : List WatchEvent) (g : ExitGlitch) :
    (waitForSandboxReady st w events g).trace.countP isWatchGatewayCall = 0 := by
  rw [List.countP_eq_zero]
  intro a ha
  rcases waitForSandboxReady_trace_mem st w events g a ha with
    ⟨nm, h⟩ | h | h | ⟨nm, h⟩ <;> subst h <;> simp [isWatchGatewayCall]

theorem wait_count_spawnTunnel (st : ClientState) (w : World)
    (events : List WatchEvent) (g : ExitGlitch) :
    (waitForSandboxReady st w events g).trace.countP isSpawnTunnelCall = 0 := by
  rw [List.countP_eq_zero]
  intro a ha
  rcases waitForSandboxReady_trace_mem st w events g a ha with
    ⟨nm, h⟩ | h | h | ⟨nm, h⟩ <;> subst h <;> simp [isSpawnTunnelCall]

theorem gateway_count_spawnTunnel (st : ClientState)
    (events : List GatewayEvent) :
    (waitForGatewayIp st events).2.countP isSpawnTunnelCall = 0 := by
  rw [List.countP_eq_zero]
  intro a ha
  rcases waitForGatewayIp_trace_mem st events a ha with ⟨nm, h⟩
  subst h
  simp [isSpawnTunnelCall]

theorem portForward_count_watchGateway (st : ClientState) (w : World)
    (env : EnterEnv) :
    (startPortForward st w env).trace.countP isWatchGatewayCall = 0 := by
  rw [List.countP_eq_zero]
  intro a ha
  rcases startPortForward_trace_mem st w env a ha with h | h | h | ⟨nm, h⟩ <;>
    subst h <;> simp [isWatchGatewayCall]

theorem exit_count_watchGateway (st : ClientState) (w : World)
    (g : ExitGlitch) :
    (sandboxExit st w g).trace.countP isWatchGatewayCall = 0 := by
  rw [List.countP_eq_zero]
  intro a ha
  rcases sandboxExit_trace_mem st w g a ha with h | h | ⟨nm, h⟩ <;>
    subst h <;> simp [isWatchGatewayCall]

/-! ## Claim theorem: C2 -/

/-- C2: acquisition activates exactly one connectivity strategy, in
priority order explicit URL, gateway discovery, local tunnel: with an
explicit api_url the trace holds no gateway watch and no tunnel spawn; with
a gateway name (and no URL) no tunnel spawn; with neither, no gateway watch
and — when acquisition succeeds — exactly one tunnel spawn and a base URL
of the form http://127.0.0.1:port for the allocated free port. -/
theorem c2_strategy_selection (cfg : ClientConfig) (suffix : String)
    (w : World) (env : EnterEnv) :
    (cfg.apiUrl.isSome = true →
      (sandboxEnter cfg suffix w env).trace.countP isWatchGatewayCall = 0 ∧
        (sandboxEnter cfg suffix w env).trace.countP isSpawnTunnelCall = 0) ∧
    (cfg.apiUrl = none → cfg.gatewayName.isSome = true →
      (sandboxEnter cfg suffix w env).trace.countP isSpawnTunnelCall = 0) ∧
    (cfg.apiUrl = none → cfg.gatewayName = none →
      (sandboxEnter cfg suffix w env).trace.countP isWatchGatewayCall = 0 ∧
        ∀ st', (sandboxEnter cfg suffix w env).result = .ok st' →
          (sandboxEnter cfg suffix w env).trace.countP isSpawnTunnelCall = 1 ∧
            st'.baseUrl = some ("http://127.0.0.1:" ++ toString env.freePort)) := by
  unfold sandboxEnter
  simp only [createClaim, initState]
  refine ⟨?_, ?_, ?_⟩
  · -- Explicit URL: no gateway watch, no tunnel spawn.
    intro hapi
    cases hres : (waitForSandboxReady _ _ env.sandboxEvents env.exitGlitch).result with
    | error e =>
      simp only [List.countP_append, wait_count_watchGateway,
        wait_count_spawnTunnel, List.countP_cons, List.countP_nil,
        isWatchGatewayCall, isSpawnTunnelCall]
      exact ⟨rfl, rfl⟩
    | ok st2 =>
      have hfields := waitForSandboxReady_ok_fields _ _ _ _ st2 hres
      cases hu : cfg.apiUrl with
      | none => rw [hu] at hapi; simp at hapi
      | some u =>
        have hb : st2.baseUrl = some u := by
          rw [hfields.1, hu]
        dsimp only
        simp only [hb]
        simp only [List.countP_append, wait_count_watchGateway,
          wait_count_spawnTunnel, List.countP_cons, List.countP_nil,
          isWatchGatewayCall, isSpawnTunnelCall]
        exact ⟨rfl, rfl⟩
  · -- Gateway discovery: no tunnel spawn.
    intro hapi hgw
    cases hres : (waitForSandboxReady _ _ env.sandboxEvents env.exitGlitch).result with
    | error e =>
      simp only [List.countP_append, wait_count_spawnTunnel, List.countP_cons,
        List.countP_nil, isSpawnTunnelCall]
      rfl
    | ok st2 =>
      have hfields := waitForSandboxReady_ok_fields _ _ _ _ st2 hres
      have hb : st2.baseUrl = none := by rw [hfields.1, hapi]
      have hc : st2.cfg = cfg := hfields.2.1
      dsimp only
      simp only [hb, hc]
      cases hg : cfg.gatewayName with
      | none => rw [hg] at hgw; simp at hgw
      | some gname =>
        simp only [hg]
        simp only [List.countP_append, wait_count_spawnTunnel,
          gateway_count_spawnTunnel, List.countP_cons, List.countP_nil,
          isSpawnTunnelCall]
        rfl
  · -- Local tunnel: no gateway watch; on success one spawn and a
    -- 127.0.0.1 base URL.
    intro hapi hgw
    cases hres : (waitForSandboxReady _ _ env.sandboxEvents env.exitGlitch).result with
    | error e =>
      constructor
      · simp only [List.countP_append, wait_count_watchGateway,
          List.countP_cons, List.countP_nil, isWatchGatewayCall]
        rfl
      · intro st' hok
        simp at hok
    | ok st2 =>
      have hfields := waitForSandboxReady_ok_fields _ _ _ _ st2 hres
      have hb : st2.baseUrl = none := by rw [hfields.1, hapi]
      have hc : st2.cfg = cfg := hfields.2.1
      dsimp only
      simp only [hb, hc, hgw]
      unfold startPortForward
      cases htun : env.tunnel with
      | crashes stderr =>
        constructor
        · simp only [List.countP_append, wait_count_watchGateway,
            List.countP_cons, List.countP_nil, isWatchGatewayCall]
          rfl
        · intro st' hok
          simp at hok
      | timesOut =>
        constructor
        · simp only [List.countP_append, wait_count_watchGateway,
            List.countP_cons, List.countP_nil, isWatchGatewayCall,
            exit_count_watchGateway]
          rfl
        · intro st' hok
          simp at hok
      | connects =>
        constructor
        · simp only [List.countP_append, wait_count_watchGateway,
            List.countP_cons, List.countP_nil, isWatchGatewayCall]
          rfl
        · intro st' hok
          simp only [Except.ok.injEq] at hok
          subst hok
          constructor
          · simp only [List.countP_append, wait_count_spawnTunnel,
              List.countP_cons, List.countP_nil, isSpawnTunnelCall]
            rfl
          · rfl

/-- C2 witness configuration A: an explicit api_url. -/
def c2CfgA : ClientConfig :=
  { templateName := "tpl", namespaceName := "default", gatewayName := none,
    gatewayNamespace := "default", apiUrl := some "http://sb.example:8080",
    serverPort := 8888, sandboxReadyTimeout := 180, gatewayReadyTimeout := 180,
    portForwardReadyTimeout := 30, enableTracing := false }

/-- C2 witness configuration B: neither api_url nor gateway. -/
def c2CfgB : ClientConfig :=
  { templateName := "tpl", namespaceName := "default", gatewayName := none,
    gatewayNamespace := "default", apiUrl := none, serverPort := 8888,
    sandboxReadyTimeout := 180, gatewayReadyTimeout := 180,
    portForwardReadyTimeout := 30, enableTracing := false }

/-- C2 witness ready event. -/
def c2ReadyEvent : WatchEvent :=
  { eventType := "ADDED"
    object :=
      { name := some "sb"
        annots := []
        conditions := [{ condType := "Ready", condStatus := "True" }] } }

/-- C2 witness environment: the sandbox becomes ready and the tunnel
connects on local port 5000. -/
def c2Env : EnterEnv :=
  { sandboxEvents := [c2ReadyEvent]
    gatewayEvents := []
    freePort := 5000
    tunnel := .connects
    exitGlitch := gClean }

/-- C2 witness final state for configuration B: ready via the tunnel. -/
def c2StB : ClientState :=
  { cfg := c2CfgB
    baseUrl := some ("http://127.0.0.1:" ++ toString (5000 : Nat))
    portForwardProcess := some { localPort := 5000, alive := true }
    claimName := some "sandbox-claim-bb"
    sandboxName := some "sb"
    podName := some "sb"
    annots := some []
    hasTracer := false }

/-- C2 witness: the explicit-URL session watches no gateway and spawns no
tunnel; the default session spawns exactly one tunnel and ends with a
127.0.0.1 base URL. -/
theorem c2_witness :
    ((sandboxEnter c2CfgA "aa" { claims := [] } c2Env).trace.countP
        isWatchGatewayCall = 0 ∧
      (sandboxEnter c2CfgA "aa" { claims := [] } c2Env).trace.countP
        isSpawnTunnelCall = 0) ∧
    ((sandboxEnter c2CfgB "bb" { claims := [] } c2Env).trace.countP
        isSpawnTunnelCall = 1 ∧
      c2StB.baseUrl = some ("http://127.0.0.1:" ++ toString (5000 : Nat))) :=
  ⟨(c2_strategy_selection c2CfgA "aa" { claims := [] } c2Env).1 (by decide),
    ((c2_strategy_selection c2CfgB "bb" { claims := [] } c2Env).2.2 rfl rfl).2
      c2StB (by decide)⟩

/-! ## Claim theorems: C5 -/

theorem waitForGatewayIp_ok_isSome (s : ClientState)
    (events : List GatewayEvent) (s' : ClientState)
    (h : (waitForGatewayIp s events).1 = .ok s') :
    s'.baseUrl.isSome = true := by
  unfold waitForGatewayIp at h
  cases hb : s.baseUrl with
  | some u =>
    simp only [hb, Except.ok.injEq] at h
    subst h
    simp [hb]
  | none =>
    cases hfind : events.find? gatewayQualifies with
    | none => simp [hb, hfind] at h
    | some e =>
      simp only [hb, hfind, Except.ok.injEq] at h
      subst h
      rfl

theorem startPortForward_ok_baseUrl (s : ClientState) (w : World)
    (env : EnterEnv) (s' : ClientState)
    (h : (startPortForward s w env).result = .ok s') :
    s'.baseUrl = some ("http://127.0.0.1:" ++ toString env.freePort) := by
  unfold startPortForward at h
  cases htun : env.tunnel with
  | crashes e => simp [htun] at h
  | timesOut => simp [htun] at h
  | connects =>
    simp only [htun, Except.ok.injEq] at h
    subst h
    rfl

/-- C5 counterexample configuration: the caller supplies an explicit
api_url at construction time. -/
def c5ExplicitCfg : ClientConfig :=
  { templateName := "tpl", namespaceName := "default", gatewayName := none,
    gatewayNamespace := "default",
    apiUrl := some "http://sandbox.internal:8080", serverPort := 8888,
    sandboxReadyTimeout := 180, gatewayReadyTimeout := 180,
    portForwardReadyTimeout := 30, enableTracing := false }

/-- C5: the claim says is_ready() is false before acquisition completes.
False on the code: `__init__` assigns `base_url = api_url`, so a session
constructed with an explicit api_url answers is_ready() = true immediately
after construction, before any acquisition has even created a claim. -/
theorem c5_ready_before_acquisition :
    isReady (initState c5ExplicitCfg) = true ∧
      (initState c5ExplicitCfg).claimName = none :=
  ⟨rfl, rfl⟩

/-- C5 (amended): is_ready() is true exactly when base_url is non-null at
every point; for a session constructed without an explicit api_url,
is_ready() is false before acquisition and true after it succeeds; and
once base_url is set no later operation reassigns it: a successful
acquisition of an explicit-URL session keeps exactly the configured URL,
the gateway wait returns immediately without touching an already-set
base_url, and release leaves base_url unchanged. -/
theorem c5_is_ready_iff_base_url (st : ClientState) (cfg : ClientConfig)
    (suffix : String) (w : World) (env : EnterEnv) (g : ExitGlitch)
    (gwEvents : List GatewayEvent) (u : String) :
    (isReady st = true ↔ st.baseUrl ≠ none) ∧
    (cfg.apiUrl = none → isReady (initState cfg) = false) ∧
    (∀ st', (sandboxEnter cfg suffix w env).result = .ok st' →
      isReady st' = true) ∧
    (cfg.apiUrl = some u →
      ∀ st', (sandboxEnter cfg suffix w env).result = .ok st' →
        st'.baseUrl = some u) ∧
    (st.baseUrl = some u → waitForGatewayIp st gwEvents = (.ok st, [])) ∧
    (sandboxExit st w g).state.baseUrl = st.baseUrl := by
  refine ⟨?_, ?_, ?_, ?_, ?_, ?_⟩
  · simp [isReady, Option.isSome_iff_ne_none]
  · intro h
    simp [isReady, initState, h]
  · intro st' hok
    unfold sandboxEnter at hok
    simp only [createClaim, initState] at hok
    split at hok
    · simp at hok
    · rename_i st2 hwres
      split at hok
      · rename_i val hval
        simp only [Except.ok.injEq] at hok
        subst hok
        simp [isReady, hval]
      · split at hok
        · rename_i hnone gname hgname
          have := waitForGatewayIp_ok_isSome st2 env.gatewayEvents st' hok
          simpa [isReady] using this
        · have := startPortForward_ok_baseUrl st2 _ env st' hok
          simp [isReady, this]
  · intro hapi st' hok
    unfold sandboxEnter at hok
    simp only [createClaim, initState] at hok
    split at hok
    · simp at hok
    · rename_i st2 hwres
      have hfields := waitForSandboxReady_ok_fields _ _ _ _ st2 hwres
      have hb : st2.baseUrl = some u := by rw [hfields.1, hapi]
      split at hok
      · rename_i val hval
        simp only [Except.ok.injEq] at hok
        subst hok
        exact hb
      · rename_i hnone
        rw [hb] at hnone
        simp at hnone
  · intro h
    unfold waitForGatewayIp
    rw [h]
  · exact exitTunnelStep_baseUrl st g

/-- C5 witness configuration without an explicit URL. -/
def c5NoUrlCfg : ClientConfig :=
  { templateName := "tpl", namespaceName := "default", gatewayName := none,
    gatewayNamespace := "default", apiUrl := none, serverPort := 8888,
    sandboxReadyTimeout := 180, gatewayReadyTimeout := 180,
    portForwardReadyTimeout := 30, enableTracing := false }

/-- C5 witness ready event. -/
def c5ReadyEvent : WatchEvent :=
  { eventType := "MODIFIED"
    object :=
      { name := some "sb"
        annots := []
        conditions := [{ condType := "Ready", condStatus := "True" }] } }

/-- C5 witness environment. -/
def c5Env : EnterEnv :=
  { sandboxEvents := [c5ReadyEvent]
    gatewayEvents := []
    freePort := 5000
    tunnel := .connects
    exitGlitch := gClean }

/-- C5 witness final state of a successful explicit-URL acquisition. -/
def c5StExplicit : ClientState :=
  { cfg := c5ExplicitCfg
    baseUrl := some "http://sandbox.internal:8080"
    portForwardProcess := none
    claimName := some "sandbox-claim-cd"
    sandboxName := some "sb"
    podName := some "sb"
    annots := some []
    hasTracer := false }

/-- C5 witness: without api_url is_ready is false after construction; a
successful explicit-URL acquisition ends with exactly the configured URL;
and the gateway wait leaves an already-set base_url untouched. -/
theorem c5_witness :
    isReady (initState c5NoUrlCfg) = false ∧
      c5StExplicit.baseUrl = some "http://sandbox.internal:8080" ∧
      waitForGatewayIp c5StExplicit [] = (.ok c5StExplicit, []) :=
  ⟨(c5_is_ready_iff_base_url c5StExplicit c5NoUrlCfg "cd" { claims := [] }
      c5Env gClean [] "http://sandbox.internal:8080").2.1 rfl,
    (c5_is_ready_iff_base_url c5StExplicit c5ExplicitCfg "cd" { claims := [] }
      c5Env gClean [] "http://sandbox.internal:8080").2.2.2.1 rfl c5StExplicit
      (by decide),
    (c5_is_ready_iff_base_url c5StExplicit c5ExplicitCfg "cd" { claims := [] }
      c5Env gClean [] "http://sandbox.internal:8080").2.2.2.2.1 rfl⟩

/-! ## Runtime server file endpoints (python-runtime-sandbox/main.py)

`POST /upload` saves the multipart filename under `/app`; `GET /download`
percent-decodes its path segment, resolves it under `/app` via
`get_safe_path` (lstrip of leading slashes, join with /app, realpath, and a
commonpath containment check) and serves the file.  Paths are segment
lists; `realpath` is modelled as segment canonicalisation (dropping empty
and `.` segments, resolving `..`); symbolic links are not modelled.  The
file system maps canonical absolute segment paths to byte contents. -/

/-- The `app` path segment (bytes of "app"), the server's base directory. -/
def appSeg : List Nat := [97, 112, 112]

/-- Split a byte path on `/` (byte 47) into segments. -/
def splitSegs : List Nat → List (List Nat)
  | [] => [[]]
  | b :: rest =>
    if b = 47 then [] :: splitSegs rest
    else
      match splitSegs rest with
      | s :: tail => (b :: s) :: tail
      | [] => [[b]]

/-- Canonicalise an absolute segment list as `os.path.realpath` does on a
symlink-free tree: empty and `.` segments vanish, `..` pops (staying at the
root when already there). -/
def canonSegs (segs : List (List Nat)) : List (List Nat) :=
  segs.foldl
    (fun acc seg =>
      if seg = [] ∨ seg = [46] then acc
      else if seg = [46, 46] then acc.dropLast
      else acc ++ [seg]) []

/-- The sandbox file system: canonical absolute segment paths to contents. -/
abbrev FileSys := List (List (List Nat) × List Nat)

/-- Store a file (later entries shadow earlier ones on lookup). -/
def fsStore (fs : FileSys) (key : List (List Nat)) (content : List Nat) :
    FileSys :=
  (key, content) :: fs

/-- Look up a file by canonical path. -/
def fsLookup (fs : FileSys) (key : List (List Nat)) : Option (List Nat) :=
  (fs.find? (fun e => decide (e.1 = key))).map (fun e => e.2)

/-- Embedding of `os.path.join("/app", filename)` as segments: an absolute
second argument discards the base. -/
def joinApp (filename : List Nat) : List (List Nat) :=
  match filename with
  | 47 :: _ => splitSegs filename
  | _ => appSeg :: splitSegs filename

/-- Outcome of the upload endpoint. -/
inductive UploadOutcome
  | ok (fs : FileSys)
  | serverError
  deriving DecidableEq

/-- Embedding of the `/upload` handler: save the uploaded bytes at
`/app/<filename>`.  Opening `/app/`, `/app/.` or `/app/..` for writing
raises, which the handler converts to a 500 answer.  The client under
verification always sends a basename (never a slash), so a slash-bearing
filename — whose outcome depends on which directories exist, state this
model does not track — is mapped to the failure answer as well. -/
def serverUpload (fs : FileSys) (filename content : List Nat) :
    UploadOutcome :=
  if filename = [] ∨ filename = [46] ∨ filename = [46, 46] ∨
      47 ∈ filename then
    .serverError
  else
    .ok (fsStore fs (canonSegs (joinApp filename)) content)

/-- Embedding of `get_safe_path`: strip leading slashes, join under /app,
canonicalise, and require the result to stay inside /app. -/
def getSafePath (decoded : List Nat) : Option (List (List Nat)) :=
  let clean := decoded.dropWhile (fun b => b == 47)
  let full := canonSegs (appSeg :: splitSegs clean)
  match full with
  | a :: _ => if a = appSeg then some full else none
  | [] => none

/-- Answer of the download endpoint. -/
inductive DownloadResult
  | content (bs : List Nat)
  | denied
  | notFound
  deriving DecidableEq

/-- Embedding of the `/download` handler.  Its argument is the
`{encoded_file_path:path}` route parameter as Starlette delivers it: the
ASGI specification hands the request path to the application already
percent-decoded once.  The handler then calls `urllib.parse.unquote` on it
itself — a second decode — before resolving the result safely under /app
and serving the file or 404. -/
def serverDownload (fs : FileSys) (pathParam : List Nat) : DownloadResult :=
  let decoded := pyUnquote pathParam
  match getSafePath decoded with
  | none => .denied
  | some key =>
    match fsLookup fs key with
    | some bs => .content bs
    | none => .notFound

/-- `SandboxClient.write` against the runtime server: upload the content
under the basename of the requested path (the filename travels in the
multipart body, which undergoes no percent-decoding). -/
def clientWrite (fs : FileSys) (path content : List Nat) : UploadOutcome :=
  serverUpload fs (basenameBytes path) content

/-- `SandboxClient.read` against the runtime server: the client requests
`download/{quote(path, safe='')}`; the ASGI server percent-decodes the raw
request path once before handing the route parameter to the handler (which
decodes again inside `serverDownload`).  A non-2xx answer makes
`raise_for_status` raise, modelled as the error status. -/
def clientRead (fs : FileSys) (path : List Nat) : Except Nat (List Nat) :=
  match serverDownload fs (pyUnquote (pyQuote path)) with
  | .content bs => .ok bs
  | .denied => .error 403
  | .notFound => .error 404

/-- write(P, C) followed by read(P) on the same session, through the full
encode / ASGI-decode / handler-decode pipeline. -/
def writeThenRead (fs : FileSys) (path content : List Nat) :
    Except Nat (List Nat) :=
  match clientWrite fs path content with
  | .ok fs2 => clientRead fs2 path
  | .serverError => .error 500

/-! ## Path lemmas for the round trip -/

theorem basename_foldl_all_slash (T : List Nat) :
    ∀ acc, (∀ b ∈ T, b = 47) → T ≠ [] →
      T.foldl (fun acc b => if b = 47 then [] else acc ++ [b]) acc = [] := by
  induction T with
  | nil =>
    intro acc _ hne
    exact absurd rfl hne
  | cons t ts ih =>
    intro acc hT _
    have ht : t = 47 := hT t (List.mem_cons_self t ts)
    rw [List.foldl_cons, if_pos ht]
    cases hts : ts with
    | nil => rfl
    | cons a l =>
      rw [← hts]
      exact ih [] (fun b hb => hT b (List.mem_cons_of_mem t hb))
        (by rw [hts]; simp)

theorem basenameBytes_slash_prefix (T Q : List Nat) (hT : ∀ b ∈ T, b = 47)
    (hQ : ∀ b ∈ Q, b ≠ 47) : basenameBytes (T ++ Q) = Q := by
  rcases hT0 : T with _ | ⟨t, ts⟩
  · simpa using basenameBytes_no_slash Q hQ
  · unfold basenameBytes
    rw [List.foldl_append]
    rw [basename_foldl_all_slash (t :: ts) [] (hT0 ▸ hT) (by simp)]
    exact basename_foldl_no_slash Q hQ []

theorem splitSegs_no_slash (l : List Nat) (h : ∀ b ∈ l, b ≠ 47) :
    splitSegs l = [l] := by
  induction l with
  | nil => rfl
  | cons b rest ih =>
    have hb : b ≠ 47 := h b (List.mem_cons_self b rest)
    have hr := ih (fun x hx => h x (List.mem_cons_of_mem b hx))
    unfold splitSegs
    rw [hr]
    simp [hb]

theorem canonSegs_app_single (Q : List Nat) (h1 : Q ≠ []) (h2 : Q ≠ [46])
    (h3 : Q ≠ [46, 46]) : canonSegs [appSeg, Q] = [appSeg, Q] := by
  unfold canonSegs appSeg
  simp [h1, h2, h3]

theorem joinApp_cons_ne (q : Nat) (qs : List Nat) (hq : q ≠ 47) :
    joinApp (q :: qs) = appSeg :: splitSegs (q :: qs) := by
  unfold joinApp
  simp [hq]

theorem fsLookup_fsStore (fs : FileSys) (key : List (List Nat))
    (C : List Nat) : fsLookup (fsStore fs key C) key = some C := by
  simp [fsLookup, fsStore]

theorem pyUnquote_no_percent (l : List Nat) (h : ∀ b ∈ l, b ≠ 37) :
    pyUnquote l = l := by
  induction l with
  | nil => exact pyUnquote_nil
  | cons b rest ih =>
    rw [pyUnquote_cons_ne b rest (h b (List.mem_cons_self b rest)),
      ih (fun x hx => h x (List.mem_cons_of_mem b hx))]

/-! ## Claim theorems: C8 -/

/-- C8 counterexample path "d/f" (bytes 100 47 102). -/
def c8DirPath : List Nat := [100, 47, 102]

/-- C8 second counterexample path "f%41" (bytes 102 37 52 49): free of
directory components but carrying a percent-hex sequence. -/
def c8PctPath : List Nat := [102, 37, 52, 49]

/-- C8: the claim says write(P, C) followed by read(P) returns C for every
path.  False on the code on two independent inputs.  For "d/f", write
transmits only basename(P), so the server stores /app/f while the read
asks for /app/d/f.  For "f%41", the read-side request path is
percent-decoded twice — once by the ASGI server delivering the route
parameter and once by the handler's own unquote — so the write stores
/app/f%41 while the read resolves /app/fA.  Both reads answer 404
(surfaced as an error by raise_for_status), not the written content. -/
theorem c8_dir_path_not_round_trip :
    (writeThenRead [] c8DirPath [1, 2, 3] = .error 404 ∧
      (Except.error 404 : Except Nat (List Nat)) ≠ .ok [1, 2, 3]) ∧
    (writeThenRead [] c8PctPath [7] = .error 404 ∧
      (Except.error 404 : Except Nat (List Nat)) ≠ .ok [7]) := by
  refine ⟨⟨?_, by decide⟩, ⟨?_, by decide⟩⟩
  · have h1 : pyUnquote (pyQuote c8DirPath) = c8DirPath :=
      pyUnquote_pyQuote c8DirPath (by decide)
    have h2 : pyUnquote c8DirPath = c8DirPath :=
      pyUnquote_no_percent c8DirPath (by decide)
    unfold writeThenRead clientRead serverDownload
    rw [h1, h2]
    decide
  · have h1 : pyUnquote (pyQuote c8PctPath) = c8PctPath :=
      pyUnquote_pyQuote c8PctPath (by decide)
    have h3 : pyUnquote c8PctPath = [102, 65] := by
      show pyUnquote (102 :: [37, 52, 49]) = [102, 65]
      rw [pyUnquote_cons_ne 102 [37, 52, 49] (by decide),
        pyUnquote_percent 52 49 [] 4 1 rfl rfl, pyUnquote_nil]
    unfold writeThenRead clientRead serverDownload
    rw [h1, h3]
    decide

/-- C8 (amended): write(P, C) followed by read(P) returns exactly C
whenever P, after stripping leading slashes, contains no further slash, is
not "." or "..", and contains no `%` byte.  In general write uploads the
content under basename(P) while the read-side path is percent-decoded
twice (once by the ASGI server, once by the handler's unquote), so the
round trip fails both for directory-prefixed paths ("d/f") and for
percent-hex-bearing names ("f%41"). -/
theorem c8_write_read_round_trip_amended (fs : FileSys) (P C : List Nat)
    (hbytes : ∀ b ∈ P, b < 256)
    (hpct : ∀ b ∈ P, b ≠ 37)
    (hQ : ∀ b ∈ P.dropWhile (fun b => b == 47), b ≠ 47)
    (hne : P.dropWhile (fun b => b == 47) ≠ [])
    (hdot : P.dropWhile (fun b => b == 47) ≠ [46])
    (hdotdot : P.dropWhile (fun b => b == 47) ≠ [46, 46]) :
    writeThenRead fs P C = .ok C := by
  set Q := P.dropWhile (fun b => b == 47) with hQdef
  have hT : ∀ b ∈ P.takeWhile (fun b => b == 47), b = 47 := by
    intro b hb
    have := List.mem_takeWhile_imp hb
    simpa using this
  have hbase : basenameBytes P = Q := by
    conv_lhs =>
      rw [show P = P.takeWhile (fun b => b == 47) ++ Q from
        (List.takeWhile_append_dropWhile (fun b => b == 47) P).symm]
    exact basenameBytes_slash_prefix _ _ hT hQ
  have hkey : canonSegs (joinApp Q) = [appSeg, Q] := by
    cases hq : Q with
    | nil => exact absurd hq hne
    | cons q qs =>
      have hQ2 : ∀ b ∈ q :: qs, b ≠ 47 := hq ▸ hQ
      have hq47 : q ≠ 47 := hQ2 q (List.mem_cons_self q qs)
      rw [joinApp_cons_ne q qs hq47, splitSegs_no_slash (q :: qs) hQ2]
      exact canonSegs_app_single (q :: qs) (hq ▸ hne) (hq ▸ hdot)
        (hq ▸ hdotdot)
  have hupload : serverUpload fs (basenameBytes P) C =
      .ok (fsStore fs [appSeg, Q] C) := by
    rw [hbase]
    unfold serverUpload
    rw [if_neg (by
      simp only [not_or]
      exact ⟨hne, hdot, hdotdot, fun hc => (hQ 47 hc) rfl⟩)]
    rw [hkey]
  have hsafe : getSafePath P = some [appSeg, Q] := by
    unfold getSafePath
    dsimp only
    rw [← hQdef, splitSegs_no_slash Q hQ,
      canonSegs_app_single Q hne hdot hdotdot]
    simp
  unfold writeThenRead clientWrite
  rw [hupload]
  unfold clientRead serverDownload
  dsimp only
  rw [pyUnquote_pyQuote P hbytes, pyUnquote_no_percent P hpct, hsafe]
  dsimp only
  rw [fsLookup_fsStore]

/-- C8 witness: on the path "/f.txt" — no directory component after
stripping the leading slash and no percent byte — writing bytes 9 8 and
reading them back returns exactly those bytes. -/
theorem c8_witness :
    (∀ b ∈ [47, 102, 46, 116, 120, 116], (b : Nat) < 256) ∧
      (∀ b ∈ [47, 102, 46, 116, 120, 116], (b : Nat) ≠ 37) ∧
      ([47, 102, 46, 116, 120, 116] : List Nat).dropWhile
        (fun b => b == 47) = [102, 46, 116, 120, 116] ∧
      writeThenRead [] [47, 102, 46, 116, 120, 116] [9, 8] = .ok [9, 8] :=
  ⟨by decide, by decide, by decide,
    c8_write_read_round_trip_amended [] [47, 102, 46, 116, 120, 116] [9, 8]
      (by decide) (by decide) (by decide) (by decide) (by decide) (by decide)⟩
